import Mathlib

/-!
Shallow embedding of the AWS infrastructure `ConfigValidator`
(`pkg/controller/infrastructure/configvalidator.go`).

The Go code validates the declared `networks.vpc.id` of an infrastructure
resource against live cloud state: it fetches two boolean VPC attributes
(`enableDnsSupport`, `enableDnsHostnames`) and the attached internet gateway,
and aggregates findings into a `field.ErrorList`.

Effects (cloud client calls) are made observable by returning, next to the
error list, the ordered list of cloud calls issued (`CloudCall`), so that
short-circuit claims ("no gateway fetch is attempted") are statable.
-/

namespace AwsValidator

/-- Error types of the `k8s.io/apimachinery` field validation package used by
the validator: `field.NotFound`, `field.Invalid`, `field.InternalError`. -/
inductive ErrorType where
  | notFound
  | invalid
  | internal
deriving DecidableEq

/-- One entry of a `field.ErrorList`: error type, optional field path
(`none` models a nil `*field.Path`), offending value and detail. -/
structure FieldError where
  type : ErrorType
  field : Option (List String)
  badValue : String
  detail : String
deriving DecidableEq

/-- `field.NotFound(fldPath, value)`: type NotFound, empty detail. -/
def fieldNotFound (fldPath : Option (List String)) (value : String) : FieldError :=
  { type := ErrorType.notFound, field := fldPath, badValue := value, detail := "" }

/-- `field.Invalid(fldPath, value, detail)`. -/
def fieldInvalid (fldPath : Option (List String)) (value detail : String) : FieldError :=
  { type := ErrorType.invalid, field := fldPath, badValue := value, detail := detail }

/-- `field.InternalError(fldPath, err)`: type Internal, no bad value, the
error's message as detail. -/
def fieldInternalError (fldPath : Option (List String)) (errMsg : String) : FieldError :=
  { type := ErrorType.internal, field := fldPath, badValue := "", detail := errMsg }

/-- An error returned by the cloud client, together with its classification
(`awsclient.IsNotFoundError`). -/
structure AwsError where
  isNotFound : Bool
  message : String
deriving DecidableEq

/-- `awsclient.IsNotFoundError(err)`: the abstract "is this a not-found
failure?" classification predicate. -/
def IsNotFoundError (err : AwsError) : Bool :=
  err.isNotFound

/-- The cloud client interface consumed by the validator
(`awsclient.Interface`): both observations are pure response maps, so a
client "returns identical responses to identical queries" by construction. -/
structure AwsClientInterface where
  getVPCAttribute : String → String → Except AwsError Bool
  getVPCInternetGateway : String → Except AwsError String

/-- One cloud client call issued by the validator, recorded in order. -/
inductive CloudCall where
  | getVPCAttribute (vpcID attr : String)
  | getVPCInternetGateway (vpcID : String)
deriving DecidableEq

/-- The attribute probe order of `validateVPC`:
`[]string{"enableDnsSupport", "enableDnsHostnames"}`. -/
def vpcAttributes : List String :=
  ["enableDnsSupport", "enableDnsHostnames"]

/-- `fmt.Errorf("could not get VPC attribute %s for VPC %s: %w", ...)`. -/
def attrFetchErrorMsg (attr vpcID errMsg : String) : String :=
  "could not get VPC attribute " ++ attr ++ " for VPC " ++ vpcID ++ ": " ++ errMsg

/-- `fmt.Sprintf("VPC attribute %s must be set to true", attribute)`. -/
def attrMustBeTrueMsg (attr : String) : String :=
  "VPC attribute " ++ attr ++ " must be set to true"

/-- `fmt.Errorf("could not get internet gateway for VPC %s: %w", ...)`. -/
def gatewayFetchErrorMsg (vpcID errMsg : String) : String :=
  "could not get internet gateway for VPC " ++ vpcID ++ ": " ++ errMsg

/-- The attribute loop of `validateVPC`: for each attribute, fetch its value;
a fetch error appends one NotFound or Internal finding and returns early
(second component `true`); a fetched `false` appends one Invalid finding and
continues. The third component records the calls issued, in order. -/
def checkAttrLoop (client : AwsClientInterface) (vpcID : String) (fldPath : List String) :
    List String → List FieldError × Bool × List CloudCall
  | [] => ([], false, [])
  | attr :: rest =>
    match client.getVPCAttribute vpcID attr with
    | Except.error err =>
      if IsNotFoundError err then
        ([fieldNotFound (some fldPath) vpcID], true, [CloudCall.getVPCAttribute vpcID attr])
      else
        ([fieldInternalError (some fldPath) (attrFetchErrorMsg attr vpcID err.message)], true,
          [CloudCall.getVPCAttribute vpcID attr])
    | Except.ok value =>
      let here := if !value then [fieldInvalid (some fldPath) vpcID (attrMustBeTrueMsg attr)] else []
      let res := checkAttrLoop client vpcID fldPath rest
      (here ++ res.1, res.2.1, CloudCall.getVPCAttribute vpcID attr :: res.2.2)

/-- The internet-gateway check at the end of `validateVPC`: a fetch error
yields one Internal finding, an empty gateway identifier one Invalid finding,
otherwise no finding. -/
def gatewayCheckFindings (client : AwsClientInterface) (vpcID : String)
    (fldPath : List String) : List FieldError :=
  match client.getVPCInternetGateway vpcID with
  | Except.error err =>
    [fieldInternalError (some fldPath) (gatewayFetchErrorMsg vpcID err.message)]
  | Except.ok internetGatewayID =>
    if internetGatewayID = "" then
      [fieldInvalid (some fldPath) vpcID "no attached internet gateway found"]
    else []

/-- `configValidator.validateVPC`: run the attribute loop; on a fetch failure
return its findings unchanged (short-circuit, no gateway fetch); otherwise
fetch the internet gateway and append its findings. -/
def validateVPC (client : AwsClientInterface) (vpcID : String) (fldPath : List String) :
    List FieldError × List CloudCall :=
  let res := checkAttrLoop client vpcID fldPath vpcAttributes
  if res.2.1 then (res.1, res.2.2)
  else (res.1 ++ gatewayCheckFindings client vpcID fldPath,
        res.2.2 ++ [CloudCall.getVPCInternetGateway vpcID])

/-- `config.Networks.VPC.ID`: optional declared network identifier. -/
structure VPCConfig where
  id : Option String
deriving DecidableEq

/-- `config.Networks`. -/
structure NetworksConfig where
  vpc : VPCConfig
deriving DecidableEq

/-- The provider config extracted from the infrastructure resource. -/
structure InfrastructureConfig where
  networks : NetworksConfig
deriving DecidableEq

/-- AWS credentials resolved from the secret reference. -/
structure Credentials where
  accessKeyID : String
  secretAccessKey : String
deriving DecidableEq

/-- The parts of the infrastructure resource the validator reads. -/
structure Infrastructure where
  region : String
  secretRefName : String
deriving DecidableEq

/-- The external collaborators of `Validate`: config extractor
(`helper.InfrastructureConfigFromInfrastructure`), credential resolver
(`aws.GetCredentialsFromSecretRef`) and cloud client factory
(`awsClientFactory.NewClient`); each may fail with an error message. -/
structure Collaborators where
  infraConfigOf : Infrastructure → Except String InfrastructureConfig
  credentialsOf : String → Except String Credentials
  newClient : String → String → String → Except String AwsClientInterface

/-- `field.NewPath("networks", "vpc", "id")`. -/
def vpcPath : List String :=
  ["networks", "vpc", "id"]

/-- `configValidator.Validate`: extract the config, resolve credentials,
build the client (each failure yields one Internal finding with nil field
path and aborts), then, if a VPC ID is declared, run `validateVPC` on it;
otherwise the report is empty. The second component is the ordered list of
cloud client calls issued. -/
def Validate (c : Collaborators) (infra : Infrastructure) :
    List FieldError × List CloudCall :=
  match c.infraConfigOf infra with
  | Except.error errMsg => ([fieldInternalError none errMsg], [])
  | Except.ok config =>
    match c.credentialsOf infra.secretRefName with
    | Except.error errMsg =>
      ([fieldInternalError none ("could not get AWS credentials: " ++ errMsg)], [])
    | Except.ok credentials =>
      match c.newClient credentials.accessKeyID credentials.secretAccessKey infra.region with
      | Except.error errMsg =>
        ([fieldInternalError none ("could not create AWS client: " ++ errMsg)], [])
      | Except.ok awsClient =>
        match config.networks.vpc.id with
        | some vpcID => validateVPC awsClient vpcID vpcPath
        | none => ([], [])

/-- Whether a recorded cloud call succeeded under the given client. -/
def callSucceeded (client : AwsClientInterface) : CloudCall → Bool
  | CloudCall.getVPCAttribute vpcID attr =>
    match client.getVPCAttribute vpcID attr with
    | Except.ok _ => true
    | Except.error _ => false
  | CloudCall.getVPCInternetGateway vpcID =>
    match client.getVPCInternetGateway vpcID with
    | Except.ok _ => true
    | Except.error _ => false

/-- The finding (if any) that probing one attribute generates: a NotFound or
Internal finding on fetch error, an Invalid finding on a fetched `false`,
nothing on a fetched `true`. -/
def attrProbeFinding (client : AwsClientInterface) (fldPath : List String)
    (vpcID attr : String) : Option FieldError :=
  match client.getVPCAttribute vpcID attr with
  | Except.error err =>
    some (if IsNotFoundError err then fieldNotFound (some fldPath) vpcID
      else fieldInternalError (some fldPath) (attrFetchErrorMsg attr vpcID err.message))
  | Except.ok value =>
    if !value then some (fieldInvalid (some fldPath) vpcID (attrMustBeTrueMsg attr)) else none

/-- The finding (if any) that a recorded cloud call generates. -/
def callFinding (client : AwsClientInterface) (fldPath : List String) :
    CloudCall → Option FieldError
  | CloudCall.getVPCAttribute vpcID attr => attrProbeFinding client fldPath vpcID attr
  | CloudCall.getVPCInternetGateway vpcID =>
    match client.getVPCInternetGateway vpcID with
    | Except.error err =>
      some (fieldInternalError (some fldPath) (gatewayFetchErrorMsg vpcID err.message))
    | Except.ok internetGatewayID =>
      if internetGatewayID = "" then
        some (fieldInvalid (some fldPath) vpcID "no attached internet gateway found")
      else none

lemma checkAttrLoop_findings_spec (client : AwsClientInterface) (vpcID : String)
    (fldPath : List String) (attrs : List String) :
    (checkAttrLoop client vpcID fldPath attrs).1
      = ((checkAttrLoop client vpcID fldPath attrs).2.2).filterMap (callFinding client fldPath)
    ∧ ((checkAttrLoop client vpcID fldPath attrs).2.2).dropLast.all (callSucceeded client) = true
    ∧ ((checkAttrLoop client vpcID fldPath attrs).2.1 = false →
        ((checkAttrLoop client vpcID fldPath attrs).2.2).all (callSucceeded client) = true) := by
  induction attrs with
  | nil => simp [checkAttrLoop]
  | cons attr rest ih =>
    obtain ⟨ih1, ih2, ih3⟩ := ih
    cases hfetch : client.getVPCAttribute vpcID attr with
    | error err =>
      cases hnf : IsNotFoundError err <;>
        simp [checkAttrLoop, hfetch, hnf, callFinding, attrProbeFinding, callSucceeded]
    | ok value =>
      refine ⟨?_, ?_, ?_⟩
      · simp only [checkAttrLoop, hfetch]
        cases value <;> simp [callFinding, attrProbeFinding, hfetch, ih1]
      · simp only [checkAttrLoop, hfetch]
        cases hrc : (checkAttrLoop client vpcID fldPath rest).2.2 with
        | nil => simp
        | cons b l =>
          rw [hrc] at ih2
          simp [List.dropLast, callSucceeded, hfetch, ih2]
      · simp only [checkAttrLoop, hfetch]
        intro hstop
        simp [callSucceeded, hfetch, ih3 hstop]

lemma filterMap_gatewayCall (client : AwsClientInterface) (fldPath : List String)
    (vpcID : String) :
    List.filterMap (callFinding client fldPath) [CloudCall.getVPCInternetGateway vpcID]
      = gatewayCheckFindings client vpcID fldPath := by
  cases hg : client.getVPCInternetGateway vpcID with
  | error err => simp [callFinding, gatewayCheckFindings, hg]
  | ok g =>
    by_cases hge : g = "" <;>
      simp [callFinding, gatewayCheckFindings, hg, hge]

lemma validateVPC_findings_spec (client : AwsClientInterface) (vpcID : String)
    (fldPath : List String) :
    (validateVPC client vpcID fldPath).1
      = ((validateVPC client vpcID fldPath).2).filterMap (callFinding client fldPath)
    ∧ ((validateVPC client vpcID fldPath).2).dropLast.all (callSucceeded client) = true := by
  obtain ⟨h1, h2, h3⟩ := checkAttrLoop_findings_spec client vpcID fldPath vpcAttributes
  simp only [validateVPC]
  cases hstop : (checkAttrLoop client vpcID fldPath vpcAttributes).2.1 with
  | true =>
    rw [if_pos rfl]
    exact ⟨h1, h2⟩
  | false =>
    rw [if_neg (by simp)]
    constructor
    · rw [List.filterMap_append, ← h1, filterMap_gatewayCall]
    · rw [List.dropLast_concat]
      exact h3 hstop

/-- Claim C7: invariant of the network check — the report is exactly the
in-order sequence of per-probe findings of the recorded calls: each probed
call whose fetch errors, or whose fetched value disagrees with the expected
`true` (resp. a non-empty gateway), contributes exactly one finding, none is
silently dropped and none is duplicated; and every recorded call before the
last one succeeded, i.e. a fetch failure terminates the check so no later
probe is issued. -/
theorem vpc_check_reports_every_failed_probe (client : AwsClientInterface)
    (vpcID : String) (fldPath : List String) :
    (validateVPC client vpcID fldPath).1
      = ((validateVPC client vpcID fldPath).2).filterMap (callFinding client fldPath)
    ∧ ((validateVPC client vpcID fldPath).2).dropLast.all (callSucceeded client) = true :=
  validateVPC_findings_spec client vpcID fldPath

lemma Validate_eq_validateVPC (c : Collaborators) (infra : Infrastructure)
    (config : InfrastructureConfig) (creds : Credentials) (client : AwsClientInterface)
    (vpcID : String)
    (hconf : c.infraConfigOf infra = Except.ok config)
    (hcred : c.credentialsOf infra.secretRefName = Except.ok creds)
    (hnew : c.newClient creds.accessKeyID creds.secretAccessKey infra.region = Except.ok client)
    (hid : config.networks.vpc.id = some vpcID) :
    Validate c infra = validateVPC client vpcID vpcPath := by
  simp only [Validate, hconf, hcred, hnew, hid]

/-- A fixed infrastructure resource used to instantiate the theorems. -/
def infraA : Infrastructure :=
  { region := "eu-west-1", secretRefName := "cloudprovider" }

/-- The provider config declaring the given VPC ID. -/
def configOfVpc (vpcID : String) : InfrastructureConfig :=
  { networks := { vpc := { id := some vpcID } } }

/-- Fixed credentials used to instantiate the theorems. -/
def credsA : Credentials :=
  { accessKeyID := "AKID", secretAccessKey := "SAK" }

/-- Collaborators that all succeed, declare the given VPC ID and hand out the
given cloud client. -/
def mkCollab (client : AwsClientInterface) (vpcID : String) : Collaborators :=
  { infraConfigOf := fun _ => Except.ok (configOfVpc vpcID),
    credentialsOf := fun _ => Except.ok credsA,
    newClient := fun _ _ _ => Except.ok client }

/-- A client for which the VPC is fully valid. -/
def clGood : AwsClientInterface :=
  { getVPCAttribute := fun _ _ => Except.ok true,
    getVPCInternetGateway := fun _ => Except.ok "igw-1" }

/-- Claim C3: for every declared spec with a network identifier, if both DNS
attribute fetches succeed returning `true` and the gateway fetch succeeds
returning a non-empty identifier, then `Validate` returns an empty report. -/
theorem validate_valid_vpc_empty_report
    (c : Collaborators) (infra : Infrastructure) (config : InfrastructureConfig)
    (creds : Credentials) (client : AwsClientInterface) (vpcID g : String)
    (hconf : c.infraConfigOf infra = Except.ok config)
    (hcred : c.credentialsOf infra.secretRefName = Except.ok creds)
    (hnew : c.newClient creds.accessKeyID creds.secretAccessKey infra.region = Except.ok client)
    (hid : config.networks.vpc.id = some vpcID)
    (h1 : client.getVPCAttribute vpcID "enableDnsSupport" = Except.ok true)
    (h2 : client.getVPCAttribute vpcID "enableDnsHostnames" = Except.ok true)
    (hg : client.getVPCInternetGateway vpcID = Except.ok g)
    (hgne : g ≠ "") :
    (Validate c infra).1 = [] := by
  rw [Validate_eq_validateVPC c infra config creds client vpcID hconf hcred hnew hid]
  simp [validateVPC, vpcAttributes, checkAttrLoop, h1, h2, gatewayCheckFindings, hg, hgne]

/-- Witness for C3 at a concrete valid client. -/
theorem validate_valid_vpc_empty_report_witness :
    clGood.getVPCAttribute "vpc-1" "enableDnsSupport" = Except.ok true ∧
    clGood.getVPCAttribute "vpc-1" "enableDnsHostnames" = Except.ok true ∧
    clGood.getVPCInternetGateway "vpc-1" = Except.ok "igw-1" ∧
    (Validate (mkCollab clGood "vpc-1") infraA).1 = [] :=
  ⟨rfl, rfl, rfl,
    validate_valid_vpc_empty_report (mkCollab clGood "vpc-1") infraA
      (configOfVpc "vpc-1") credsA clGood "vpc-1" "igw-1"
      rfl rfl rfl rfl rfl rfl rfl (by decide)⟩

/-- A client with valid DNS attributes but no attached internet gateway. -/
def clNoGateway : AwsClientInterface :=
  { getVPCAttribute := fun _ _ => Except.ok true,
    getVPCInternetGateway := fun _ => Except.ok "" }

/-- Claim C5: for every declared spec with a network identifier, if both DNS
attribute fetches succeed returning `true` and the gateway fetch succeeds but
returns the empty identifier, then the report contains exactly one Invalid
finding, at `networks.vpc.id`, with detail "no attached internet gateway
found". -/
theorem validate_missing_gateway_single_invalid
    (c : Collaborators) (infra : Infrastructure) (config : InfrastructureConfig)
    (creds : Credentials) (client : AwsClientInterface) (vpcID : String)
    (hconf : c.infraConfigOf infra = Except.ok config)
    (hcred : c.credentialsOf infra.secretRefName = Except.ok creds)
    (hnew : c.newClient creds.accessKeyID creds.secretAccessKey infra.region = Except.ok client)
    (hid : config.networks.vpc.id = some vpcID)
    (h1 : client.getVPCAttribute vpcID "enableDnsSupport" = Except.ok true)
    (h2 : client.getVPCAttribute vpcID "enableDnsHostnames" = Except.ok true)
    (hg : client.getVPCInternetGateway vpcID = Except.ok "") :
    (Validate c infra).1
      = [fieldInvalid (some vpcPath) vpcID "no attached internet gateway found"] := by
  rw [Validate_eq_validateVPC c infra config creds client vpcID hconf hcred hnew hid]
  simp [validateVPC, vpcAttributes, checkAttrLoop, h1, h2, gatewayCheckFindings, hg]

/-- Witness for C5 at a concrete client without an attached gateway. -/
theorem validate_missing_gateway_single_invalid_witness :
    clNoGateway.getVPCAttribute "vpc-1" "enableDnsSupport" = Except.ok true ∧
    clNoGateway.getVPCAttribute "vpc-1" "enableDnsHostnames" = Except.ok true ∧
    clNoGateway.getVPCInternetGateway "vpc-1" = Except.ok "" ∧
    (Validate (mkCollab clNoGateway "vpc-1") infraA).1
      = [fieldInvalid (some vpcPath) "vpc-1" "no attached internet gateway found"] :=
  ⟨rfl, rfl, rfl,
    validate_missing_gateway_single_invalid (mkCollab clNoGateway "vpc-1") infraA
      (configOfVpc "vpc-1") credsA clNoGateway "vpc-1"
      rfl rfl rfl rfl rfl rfl rfl⟩

/-- A client whose first attribute fetch fails with an unclassified error. -/
def clAttrErr : AwsClientInterface :=
  { getVPCAttribute := fun _ _ => Except.error { isNotFound := false, message := "test" },
    getVPCInternetGateway := fun _ => Except.ok "igw-1" }

/-- Claim C4: for every declared spec with a network identifier, if the first
DNS attribute fetch (`enableDnsSupport`) fails with an error not classified
as not-found, then the report contains exactly one Internal finding whose
detail names the failing attribute and the network identifier, and the second
attribute fetch and the gateway fetch are never performed. -/
theorem validate_internal_error_shortCircuit
    (c : Collaborators) (infra : Infrastructure) (config : InfrastructureConfig)
    (creds : Credentials) (client : AwsClientInterface) (vpcID : String) (e : AwsError)
    (hconf : c.infraConfigOf infra = Except.ok config)
    (hcred : c.credentialsOf infra.secretRefName = Except.ok creds)
    (hnew : c.newClient creds.accessKeyID creds.secretAccessKey infra.region = Except.ok client)
    (hid : config.networks.vpc.id = some vpcID)
    (h1 : client.getVPCAttribute vpcID "enableDnsSupport" = Except.error e)
    (hnf : IsNotFoundError e = false) :
    (Validate c infra).1
      = [fieldInternalError (some vpcPath)
          (attrFetchErrorMsg "enableDnsSupport" vpcID e.message)]
    ∧ (Validate c infra).2 = [CloudCall.getVPCAttribute vpcID "enableDnsSupport"]
    ∧ List.IsInfix "enableDnsSupport".data
        (attrFetchErrorMsg "enableDnsSupport" vpcID e.message).data
    ∧ List.IsInfix vpcID.data (attrFetchErrorMsg "enableDnsSupport" vpcID e.message).data := by
  rw [Validate_eq_validateVPC c infra config creds client vpcID hconf hcred hnew hid]
  refine ⟨?_, ?_, ?_, ?_⟩
  · simp [validateVPC, vpcAttributes, checkAttrLoop, h1, hnf]
  · simp [validateVPC, vpcAttributes, checkAttrLoop, h1, hnf]
  · refine ⟨"could not get VPC attribute ".data,
      (" for VPC " ++ vpcID ++ ": " ++ e.message).data, ?_⟩
    simp [attrFetchErrorMsg, String.data_append]
  · refine ⟨("could not get VPC attribute " ++ "enableDnsSupport" ++ " for VPC ").data,
      (": " ++ e.message).data, ?_⟩
    simp [attrFetchErrorMsg, String.data_append]

/-- Witness for C4 at a concrete client with a failing attribute fetch. -/
theorem validate_internal_error_shortCircuit_witness :
    clAttrErr.getVPCAttribute "vpc-1" "enableDnsSupport"
        = Except.error { isNotFound := false, message := "test" } ∧
    IsNotFoundError { isNotFound := false, message := "test" } = false ∧
    (Validate (mkCollab clAttrErr "vpc-1") infraA).1
      = [fieldInternalError (some vpcPath)
          (attrFetchErrorMsg "enableDnsSupport" "vpc-1" "test")] :=
  ⟨rfl, rfl,
    (validate_internal_error_shortCircuit (mkCollab clAttrErr "vpc-1") infraA
      (configOfVpc "vpc-1") credsA clAttrErr "vpc-1"
      { isNotFound := false, message := "test" }
      rfl rfl rfl rfl rfl rfl).1⟩

/-- A client for which every attribute fetch fails with a not-found error. -/
def clVpcMissing : AwsClientInterface :=
  { getVPCAttribute := fun _ _ => Except.error { isNotFound := true, message := "nf" },
    getVPCInternetGateway := fun _ => Except.ok "igw-1" }

/-- Claim C1: for every declared spec with a network identifier, if an
attribute fetch fails with a not-found-classified error, then the report
contains exactly one NotFound finding, at `networks.vpc.id`, carrying the
network identifier as its value, and no further attribute fetch and no
gateway fetch is performed (the recorded call trace ends at the failing
attribute and contains no gateway call). -/
theorem validate_notFound_single_finding_shortCircuit
    (c : Collaborators) (infra : Infrastructure) (config : InfrastructureConfig)
    (creds : Credentials) (client : AwsClientInterface) (vpcID a : String) (e : AwsError)
    (hconf : c.infraConfigOf infra = Except.ok config)
    (hcred : c.credentialsOf infra.secretRefName = Except.ok creds)
    (hnew : c.newClient creds.accessKeyID creds.secretAccessKey infra.region = Except.ok client)
    (hid : config.networks.vpc.id = some vpcID)
    (hnf : IsNotFoundError e = true)
    (ha : (a = "enableDnsSupport" ∧ client.getVPCAttribute vpcID a = Except.error e) ∨
          (a = "enableDnsHostnames" ∧
            (∃ v, client.getVPCAttribute vpcID "enableDnsSupport" = Except.ok v) ∧
            client.getVPCAttribute vpcID a = Except.error e)) :
    (Validate c infra).1.filter (fun f => f.type == ErrorType.notFound)
        = [fieldNotFound (some vpcPath) vpcID]
    ∧ (Validate c infra).2
        = (if a = "enableDnsSupport" then [CloudCall.getVPCAttribute vpcID a]
           else [CloudCall.getVPCAttribute vpcID "enableDnsSupport",
                 CloudCall.getVPCAttribute vpcID a]) := by
  rw [Validate_eq_validateVPC c infra config creds client vpcID hconf hcred hnew hid]
  rcases ha with ⟨rfl, herr⟩ | ⟨rfl, ⟨v, hok⟩, herr⟩
  · constructor
    · simp [validateVPC, vpcAttributes, checkAttrLoop, herr, hnf, List.filter, fieldNotFound]
    · simp [validateVPC, vpcAttributes, checkAttrLoop, herr, hnf]
  · constructor
    · cases v <;>
        simp +decide [validateVPC, vpcAttributes, checkAttrLoop, hok, herr, hnf,
          List.filter, fieldNotFound, fieldInvalid]
    · cases v <;>
        simp +decide [validateVPC, vpcAttributes, checkAttrLoop, hok, herr, hnf]

/-- Witness for C1 at a concrete client whose VPC does not exist. -/
theorem validate_notFound_single_finding_shortCircuit_witness :
    clVpcMissing.getVPCAttribute "vpc-1" "enableDnsSupport"
        = Except.error { isNotFound := true, message := "nf" } ∧
    (Validate (mkCollab clVpcMissing "vpc-1") infraA).1.filter
        (fun f => f.type == ErrorType.notFound) = [fieldNotFound (some vpcPath) "vpc-1"] ∧
    (Validate (mkCollab clVpcMissing "vpc-1") infraA).2
        = [CloudCall.getVPCAttribute "vpc-1" "enableDnsSupport"] := by
  have h := validate_notFound_single_finding_shortCircuit (mkCollab clVpcMissing "vpc-1")
    infraA (configOfVpc "vpc-1") credsA clVpcMissing "vpc-1" "enableDnsSupport"
    { isNotFound := true, message := "nf" } rfl rfl rfl rfl rfl (Or.inl ⟨rfl, rfl⟩)
  exact ⟨rfl, h.1, by rw [h.2, if_pos rfl]⟩

/-- A client with both DNS attributes false and no attached gateway. -/
def clBothFalseNoGw : AwsClientInterface :=
  { getVPCAttribute := fun _ _ => Except.ok false,
    getVPCInternetGateway := fun _ => Except.ok "" }

/-- Counterexample to C2 as stated: with both DNS attributes fetched as
`false`, the gateway check still runs; a gateway fetch returning the empty
identifier adds a third Invalid finding, so the report does not contain
exactly two Invalid findings. (The repository's own test expects these three
findings.) -/
theorem validate_bothFalse_two_invalid_cex :
    clBothFalseNoGw.getVPCAttribute "vpc-1" "enableDnsSupport" = Except.ok false ∧
    clBothFalseNoGw.getVPCAttribute "vpc-1" "enableDnsHostnames" = Except.ok false ∧
    (mkCollab clBothFalseNoGw "vpc-1").infraConfigOf infraA = Except.ok (configOfVpc "vpc-1") ∧
    (configOfVpc "vpc-1").networks.vpc.id = some "vpc-1" ∧
    ¬ ((Validate (mkCollab clBothFalseNoGw "vpc-1") infraA).1.filter
        (fun f => f.type == ErrorType.invalid)).length = 2 :=
  ⟨rfl, rfl, rfl, rfl, by decide⟩

/-- Claim C2, amended: for every declared spec with a network identifier, if
both DNS attribute fetches succeed and both return `false`, then the report
consists of the two Invalid findings, one per attribute (in probe order:
`enableDnsSupport` then `enableDnsHostnames`), both at `networks.vpc.id`,
followed only by the findings of the gateway check. -/
theorem validate_bothFalse_invalid_pair
    (c : Collaborators) (infra : Infrastructure) (config : InfrastructureConfig)
    (creds : Credentials) (client : AwsClientInterface) (vpcID : String)
    (hconf : c.infraConfigOf infra = Except.ok config)
    (hcred : c.credentialsOf infra.secretRefName = Except.ok creds)
    (hnew : c.newClient creds.accessKeyID creds.secretAccessKey infra.region = Except.ok client)
    (hid : config.networks.vpc.id = some vpcID)
    (h1 : client.getVPCAttribute vpcID "enableDnsSupport" = Except.ok false)
    (h2 : client.getVPCAttribute vpcID "enableDnsHostnames" = Except.ok false) :
    (Validate c infra).1
      = fieldInvalid (some vpcPath) vpcID (attrMustBeTrueMsg "enableDnsSupport")
        :: fieldInvalid (some vpcPath) vpcID (attrMustBeTrueMsg "enableDnsHostnames")
        :: gatewayCheckFindings client vpcID vpcPath := by
  rw [Validate_eq_validateVPC c infra config creds client vpcID hconf hcred hnew hid]
  simp [validateVPC, vpcAttributes, checkAttrLoop, h1, h2]

/-- Witness for the amended C2 at a concrete client. -/
theorem validate_bothFalse_invalid_pair_witness :
    clBothFalseNoGw.getVPCAttribute "vpc-1" "enableDnsSupport" = Except.ok false ∧
    clBothFalseNoGw.getVPCAttribute "vpc-1" "enableDnsHostnames" = Except.ok false ∧
    (Validate (mkCollab clBothFalseNoGw "vpc-1") infraA).1
      = fieldInvalid (some vpcPath) "vpc-1" (attrMustBeTrueMsg "enableDnsSupport")
        :: fieldInvalid (some vpcPath) "vpc-1" (attrMustBeTrueMsg "enableDnsHostnames")
        :: gatewayCheckFindings clBothFalseNoGw "vpc-1" vpcPath :=
  ⟨rfl, rfl,
    validate_bothFalse_invalid_pair (mkCollab clBothFalseNoGw "vpc-1") infraA
      (configOfVpc "vpc-1") credsA clBothFalseNoGw "vpc-1"
      rfl rfl rfl rfl rfl rfl⟩

/-- A provider config with no declared VPC ID. -/
def configNoVpc : InfrastructureConfig :=
  { networks := { vpc := { id := none } } }

/-- Collaborators whose credential resolution fails while the config declares
no VPC ID. -/
def collabCredsFail : Collaborators :=
  { infraConfigOf := fun _ => Except.ok configNoVpc,
    credentialsOf := fun _ => Except.error "secret not found",
    newClient := fun _ _ _ => Except.ok clGood }

/-- Counterexample to C6 as stated: with the VPC ID absent but a failing
credential resolver, `Validate` still returns a non-empty report (one
Internal finding), so "returns an empty report" does not hold for every
collaborator behaviour. -/
theorem validate_no_vpc_empty_cex :
    collabCredsFail.infraConfigOf infraA = Except.ok configNoVpc ∧
    configNoVpc.networks.vpc.id = none ∧
    (Validate collabCredsFail infraA).1 ≠ [] :=
  ⟨rfl, rfl, by decide⟩

/-- Claim C6, amended: for all declared specs without a network identifier,
`Validate` makes no cloud calls; and if credential resolution and client
construction also succeed, it returns an empty report. -/
theorem validate_no_vpc_id
    (c : Collaborators) (infra : Infrastructure) (config : InfrastructureConfig)
    (hconf : c.infraConfigOf infra = Except.ok config)
    (hid : config.networks.vpc.id = none) :
    (Validate c infra).2 = []
    ∧ ∀ creds, c.credentialsOf infra.secretRefName = Except.ok creds →
        ∀ client, c.newClient creds.accessKeyID creds.secretAccessKey infra.region
            = Except.ok client →
          (Validate c infra).1 = [] := by
  constructor
  · simp only [Validate, hconf]
    cases hcred : c.credentialsOf infra.secretRefName with
    | error m => rfl
    | ok creds =>
      cases hnew : c.newClient creds.accessKeyID creds.secretAccessKey infra.region with
      | error m => simp [hnew]
      | ok client => simp [hnew, hid]
  · intro creds hcred client hnew
    simp only [Validate, hconf, hcred, hnew, hid]

/-- Collaborators that all succeed with no declared VPC ID. -/
def collabGoodNoVpc : Collaborators :=
  { infraConfigOf := fun _ => Except.ok configNoVpc,
    credentialsOf := fun _ => Except.ok credsA,
    newClient := fun _ _ _ => Except.ok clGood }

/-- Witness for the amended C6 at concrete collaborators. -/
theorem validate_no_vpc_id_witness :
    configNoVpc.networks.vpc.id = none ∧
    (Validate collabGoodNoVpc infraA).2 = [] ∧
    (Validate collabGoodNoVpc infraA).1 = [] :=
  ⟨rfl, (validate_no_vpc_id collabGoodNoVpc infraA configNoVpc rfl rfl).1,
    (validate_no_vpc_id collabGoodNoVpc infraA configNoVpc rfl rfl).2 credsA rfl clGood rfl⟩

/-- Whether any collaborator invoked by `Validate` failed: config extraction,
credential resolution, client construction, or any cloud call issued. -/
def collaboratorFailure (c : Collaborators) (infra : Infrastructure) : Bool :=
  match c.infraConfigOf infra with
  | Except.error _ => true
  | Except.ok _ =>
    match c.credentialsOf infra.secretRefName with
    | Except.error _ => true
    | Except.ok credentials =>
      match c.newClient credentials.accessKeyID credentials.secretAccessKey infra.region with
      | Except.error _ => true
      | Except.ok awsClient =>
        (Validate c infra).2.any (fun call => !(callSucceeded awsClient call))

lemma validateVPC_failure_nonempty (client : AwsClientInterface) (vpcID : String)
    (fldPath : List String)
    (h : ((validateVPC client vpcID fldPath).2).any
        (fun call => !(callSucceeded client call)) = true) :
    (validateVPC client vpcID fldPath).1 ≠ [] := by
  cases h1 : client.getVPCAttribute vpcID "enableDnsSupport" with
  | error e =>
    cases hnf : IsNotFoundError e <;>
      simp [validateVPC, vpcAttributes, checkAttrLoop, h1, hnf]
  | ok v1 =>
    cases h2 : client.getVPCAttribute vpcID "enableDnsHostnames" with
    | error e =>
      cases hnf : IsNotFoundError e <;> cases v1 <;>
        simp [validateVPC, vpcAttributes, checkAttrLoop, h1, h2, hnf]
    | ok v2 =>
      cases hg : client.getVPCInternetGateway vpcID with
      | error e =>
        cases v1 <;> cases v2 <;>
          simp [validateVPC, vpcAttributes, checkAttrLoop, h1, h2, hg, gatewayCheckFindings]
      | ok g =>
        exfalso
        simp [validateVPC, vpcAttributes, checkAttrLoop, h1, h2, hg, callSucceeded] at h

/-- Claim C8: `Validate` is a total function of the spec and the collaborator
behaviours: it always returns a report whose findings are all Internal,
NotFound or Invalid, and whenever any collaborator it invoked failed, that
failure is encoded in the report (the report is non-empty) rather than
propagated. -/
theorem validate_total_and_encodes_failures (c : Collaborators) (infra : Infrastructure) :
    ((Validate c infra).1.all
        (fun f => f.type == ErrorType.internal || f.type == ErrorType.notFound
          || f.type == ErrorType.invalid)) = true
    ∧ (collaboratorFailure c infra = true → (Validate c infra).1 ≠ []) := by
  constructor
  · rw [List.all_eq_true]
    intro f hf
    rcases f with ⟨t, fp, bv, d⟩
    cases t <;> rfl
  · intro hfail
    cases hconf : c.infraConfigOf infra with
    | error m => simp [Validate, hconf]
    | ok config =>
      cases hcred : c.credentialsOf infra.secretRefName with
      | error m => simp [Validate, hconf, hcred]
      | ok creds =>
        cases hnew : c.newClient creds.accessKeyID creds.secretAccessKey infra.region with
        | error m => simp [Validate, hconf, hcred, hnew]
        | ok client =>
          cases hid : config.networks.vpc.id with
          | none =>
            simp only [collaboratorFailure, hconf, hcred, hnew] at hfail
            simp only [Validate, hconf, hcred, hnew, hid] at hfail
            simp at hfail
          | some vpcID =>
            simp only [collaboratorFailure, hconf, hcred, hnew] at hfail
            rw [Validate_eq_validateVPC c infra config creds client vpcID
              hconf hcred hnew hid] at hfail ⊢
            exact validateVPC_failure_nonempty client vpcID vpcPath hfail

/-- Collaborators whose config extraction fails. -/
def collabConfFail : Collaborators :=
  { infraConfigOf := fun _ => Except.error "cannot decode provider config",
    credentialsOf := fun _ => Except.ok credsA,
    newClient := fun _ _ _ => Except.ok clGood }

/-- Witness for C8 at collaborators with failing config extraction. -/
theorem validate_total_and_encodes_failures_witness :
    collaboratorFailure collabConfFail infraA = true ∧
    (Validate collabConfFail infraA).1 ≠ [] :=
  ⟨rfl, (validate_total_and_encodes_failures collabConfFail infraA).2 rfl⟩

/-- Two cloud clients that return identical responses to identical queries. -/
def ClientAgrees (g1 g2 : AwsClientInterface) : Prop :=
  (∀ v a, g1.getVPCAttribute v a = g2.getVPCAttribute v a)
  ∧ (∀ v, g1.getVPCInternetGateway v = g2.getVPCInternetGateway v)

/-- Two client-factory results that agree: same error, or clients returning
identical responses. -/
def NewClientAgrees :
    Except String AwsClientInterface → Except String AwsClientInterface → Prop
  | Except.error m1, Except.error m2 => m1 = m2
  | Except.ok g1, Except.ok g2 => ClientAgrees g1 g2
  | _, _ => False

lemma clientAgrees_eq (g1 g2 : AwsClientInterface) (h : ClientAgrees g1 g2) :
    g1 = g2 := by
  rcases g1 with ⟨f1, w1⟩
  rcases g2 with ⟨f2, w2⟩
  obtain ⟨ha, hg⟩ := h
  congr 1
  · funext v a
    exact ha v a
  · funext v
    exact hg v

/-- Claim C9: the report is a deterministic function of the spec and the
collaborator responses: two runs with collaborators returning identical
responses to identical queries yield identical reports (findings and order)
and identical call traces. -/
theorem validate_deterministic (c1 c2 : Collaborators) (infra : Infrastructure)
    (hconf : ∀ i, c1.infraConfigOf i = c2.infraConfigOf i)
    (hcred : ∀ s, c1.credentialsOf s = c2.credentialsOf s)
    (hnew : ∀ a k r, NewClientAgrees (c1.newClient a k r) (c2.newClient a k r)) :
    Validate c1 infra = Validate c2 infra := by
  cases co : c2.infraConfigOf infra with
  | error m =>
    have co1 : c1.infraConfigOf infra = Except.error m := by rw [hconf infra, co]
    simp [Validate, co1, co]
  | ok config =>
    have co1 : c1.infraConfigOf infra = Except.ok config := by rw [hconf infra, co]
    cases cr : c2.credentialsOf infra.secretRefName with
    | error m =>
      have cr1 : c1.credentialsOf infra.secretRefName = Except.error m := by
        rw [hcred infra.secretRefName, cr]
      simp [Validate, co1, co, cr1, cr]
    | ok creds =>
      have cr1 : c1.credentialsOf infra.secretRefName = Except.ok creds := by
        rw [hcred infra.secretRefName, cr]
      have h := hnew creds.accessKeyID creds.secretAccessKey infra.region
      cases e1 : c1.newClient creds.accessKeyID creds.secretAccessKey infra.region with
      | error m1 =>
        cases e2 : c2.newClient creds.accessKeyID creds.secretAccessKey infra.region with
        | error m2 =>
          rw [e1, e2] at h
          have hm : m1 = m2 := h
          simp [Validate, co1, co, cr1, cr, e1, e2, hm]
        | ok g2 =>
          rw [e1, e2] at h
          exact (h : False).elim
      | ok g1 =>
        cases e2 : c2.newClient creds.accessKeyID creds.secretAccessKey infra.region with
        | error m2 =>
          rw [e1, e2] at h
          exact (h : False).elim
        | ok g2 =>
          rw [e1, e2] at h
          have hg : g1 = g2 := clientAgrees_eq g1 g2 h
          simp [Validate, co1, co, cr1, cr, e1, e2, hg]

/-- Witness for C9: two identical collaborator bundles yield the same report. -/
theorem validate_deterministic_witness :
    Validate collabGoodNoVpc infraA = Validate collabGoodNoVpc infraA :=
  validate_deterministic collabGoodNoVpc collabGoodNoVpc infraA
    (fun _ => rfl) (fun _ => rfl)
    (fun _ _ _ => ⟨fun _ _ => rfl, fun _ => rfl⟩)

lemma callFinding_field (client : AwsClientInterface) (fldPath : List String)
    (call : CloudCall) (f : FieldError)
    (h : callFinding client fldPath call = some f) :
    f.field = some fldPath := by
  cases call with
  | getVPCAttribute v a =>
    simp only [callFinding, attrProbeFinding] at h
    cases hf : client.getVPCAttribute v a with
    | error err =>
      simp only [hf] at h
      by_cases hnf : IsNotFoundError err = true
      · rw [if_pos hnf] at h
        injection h with h2
        subst h2
        rfl
      · rw [if_neg hnf] at h
        injection h with h2
        subst h2
        rfl
    | ok value =>
      simp only [hf] at h
      cases value with
      | false =>
        simp only [Bool.not_false, if_true] at h
        injection h with h2
        subst h2
        rfl
      | true =>
        simp only [Bool.not_true, if_false] at h
        exact Option.noConfusion h
  | getVPCInternetGateway v =>
    simp only [callFinding] at h
    cases hg : client.getVPCInternetGateway v with
    | error err =>
      simp only [hg] at h
      injection h with h2
      subst h2
      rfl
    | ok g =>
      simp only [hg] at h
      by_cases hge : g = ""
      · rw [if_pos hge] at h
        injection h with h2
        subst h2
        rfl
      · rw [if_neg hge] at h
        exact Option.noConfusion h

/-- Claim C10 (implicit): findings appended before a short-circuit are
retained — if the first attribute fetch yields `false` and the second fetch
fails, the report is the Invalid finding for the first attribute followed by
the NotFound or Internal finding for the second, in that order; and the
Internal findings of the three early-return branches of `Validate` carry no
field path (`none`), while every finding of the network check carries the
field path handed to `validateVPC`. -/
theorem validate_early_findings_retained_and_paths :
    (∀ client : AwsClientInterface, ∀ vpcID : String, ∀ e : AwsError,
      client.getVPCAttribute vpcID "enableDnsSupport" = Except.ok false →
      client.getVPCAttribute vpcID "enableDnsHostnames" = Except.error e →
      (validateVPC client vpcID vpcPath).1
        = [fieldInvalid (some vpcPath) vpcID (attrMustBeTrueMsg "enableDnsSupport"),
           if IsNotFoundError e then fieldNotFound (some vpcPath) vpcID
           else fieldInternalError (some vpcPath)
             (attrFetchErrorMsg "enableDnsHostnames" vpcID e.message)])
    ∧ (∀ c : Collaborators, ∀ infra : Infrastructure, ∀ m : String,
        c.infraConfigOf infra = Except.error m →
        ∀ f ∈ (Validate c infra).1, f.field = none)
    ∧ (∀ c : Collaborators, ∀ infra : Infrastructure,
        ∀ config : InfrastructureConfig, ∀ m : String,
        c.infraConfigOf infra = Except.ok config →
        c.credentialsOf infra.secretRefName = Except.error m →
        ∀ f ∈ (Validate c infra).1, f.field = none)
    ∧ (∀ c : Collaborators, ∀ infra : Infrastructure,
        ∀ config : InfrastructureConfig, ∀ creds : Credentials, ∀ m : String,
        c.infraConfigOf infra = Except.ok config →
        c.credentialsOf infra.secretRefName = Except.ok creds →
        c.newClient creds.accessKeyID creds.secretAccessKey infra.region
            = Except.error m →
        ∀ f ∈ (Validate c infra).1, f.field = none)
    ∧ (∀ client : AwsClientInterface, ∀ vpcID : String, ∀ fldPath : List String,
        ∀ f ∈ (validateVPC client vpcID fldPath).1, f.field = some fldPath) := by
  refine ⟨?_, ?_, ?_, ?_, ?_⟩
  · intro client vpcID e h1 h2
    cases hnf : IsNotFoundError e <;>
      simp [validateVPC, vpcAttributes, checkAttrLoop, h1, h2, hnf]
  · intro c infra m hconf f hf
    simp only [Validate, hconf] at hf
    simp only [List.mem_singleton] at hf
    subst hf
    rfl
  · intro c infra config m hconf hcred f hf
    simp only [Validate, hconf, hcred] at hf
    simp only [List.mem_singleton] at hf
    subst hf
    rfl
  · intro c infra config creds m hconf hcred hnew f hf
    simp only [Validate, hconf, hcred, hnew] at hf
    simp only [List.mem_singleton] at hf
    subst hf
    rfl
  · intro client vpcID fldPath f hf
    rw [(validateVPC_findings_spec client vpcID fldPath).1] at hf
    obtain ⟨call, hcall, hsome⟩ := List.mem_filterMap.mp hf
    exact callFinding_field client fldPath call f hsome

/-- A client whose first attribute is `false` and whose second attribute
fetch fails with a not-found error. -/
def clC10 : AwsClientInterface :=
  { getVPCAttribute := fun _ attr =>
      if attr = "enableDnsSupport" then Except.ok false
      else Except.error { isNotFound := true, message := "nf" },
    getVPCInternetGateway := fun _ => Except.ok "igw-1" }

/-- Collaborators whose client construction fails. -/
def collabFactoryFail : Collaborators :=
  { infraConfigOf := fun _ => Except.ok (configOfVpc "vpc-1"),
    credentialsOf := fun _ => Except.ok credsA,
    newClient := fun _ _ _ => Except.error "boom" }

/-- Witness for C10: each part instantiated at concrete inputs. -/
theorem validate_early_findings_retained_and_paths_witness :
    clC10.getVPCAttribute "vpc-1" "enableDnsSupport" = Except.ok false ∧
    clC10.getVPCAttribute "vpc-1" "enableDnsHostnames"
        = Except.error { isNotFound := true, message := "nf" } ∧
    (validateVPC clC10 "vpc-1" vpcPath).1
      = [fieldInvalid (some vpcPath) "vpc-1" (attrMustBeTrueMsg "enableDnsSupport"),
         fieldNotFound (some vpcPath) "vpc-1"] ∧
    (fieldInternalError none "cannot decode provider config").field = none ∧
    (fieldInternalError none ("could not get AWS credentials: " ++ "secret not found")).field
        = none ∧
    (fieldInternalError none ("could not create AWS client: " ++ "boom")).field = none ∧
    (fieldNotFound (some vpcPath) "vpc-1").field = some vpcPath := by
  have h := validate_early_findings_retained_and_paths
  refine ⟨by rfl, by rfl, ?_, ?_, ?_, ?_, ?_⟩
  · rw [h.1 clC10 "vpc-1" { isNotFound := true, message := "nf" } (by rfl) (by rfl)]
    rfl
  · exact h.2.1 collabConfFail infraA "cannot decode provider config" rfl
      (fieldInternalError none "cannot decode provider config") (by decide)
  · exact h.2.2.1 collabCredsFail infraA configNoVpc "secret not found" rfl rfl
      (fieldInternalError none ("could not get AWS credentials: " ++ "secret not found"))
      (by decide)
  · exact h.2.2.2.1 collabFactoryFail infraA (configOfVpc "vpc-1") credsA "boom"
      rfl rfl rfl
      (fieldInternalError none ("could not create AWS client: " ++ "boom")) (by decide)
  · exact h.2.2.2.2 clC10 "vpc-1" vpcPath (fieldNotFound (some vpcPath) "vpc-1") (by decide)

end AwsValidator
